import Mathlib

/-!
# Verification of the HSTFocusModel calendar / interval-aggregation code

Shallow embedding of `src/HSTFocusModel.py` (single-module Python program).

Numeric model: Python floats are modelled as exact rationals (`ℚ`); the
arithmetic appearing in the source (sums, products, true division from
`from __future__ import division`, `numpy.floor`, `int()` truncation) is
translated to exact `ℚ` arithmetic with `Int.floor` and truncation toward
zero.  Fallible Python code (code that can raise) is modelled with
`Except`.  External collaborators (the HTTP fetch, the `scipy`
`UnivariateSpline` class, `numpy.trapz`) are passed in as function parameters,
matching the description in the spec of them as external collaborators.
-/

/-- Python `int()` applied to a float value: truncation toward zero. -/
def pytrunc (q : ℚ) : ℤ := if 0 ≤ q then ⌊q⌋ else ⌈q⌉

/-- Exceptions raised by the modelled code. -/
inductive PyError where
  /-- Exception `HTTPResponseError` (src lines 46-51), carrying `response.status`. -/
  | http (status : ℕ)
  /-- Python `ValueError`, e.g. from `datetime.date` with out-of-range fields. -/
  | valueError
  /-- Python `ZeroDivisionError` from float division by zero. -/
  | zeroDivision
deriving DecidableEq, Repr

/-- Python float division: raises `ZeroDivisionError` on zero denominator. -/
def pydiv (a b : ℚ) : Except PyError ℚ :=
  if b = 0 then .error .zeroDivision else .ok (a / b)

/-- Gregorian leap-year rule of the Python `datetime.date` type (proleptic Gregorian). -/
def pydate_is_leap (y : ℤ) : Bool :=
  (y % 4 == 0 && y % 100 != 0) || y % 400 == 0

/-- Number of days in a month, per `datetime.date`. -/
def pydate_days_in_month (y m : ℤ) : ℤ :=
  if m = 2 then (if pydate_is_leap y then 29 else 28)
  else if m = 4 ∨ m = 6 ∨ m = 9 ∨ m = 11 then 30
  else 31

/-- The validity check performed by the `datetime.date(year, month, day)`
constructor: `datetime.MINYEAR = 1 ≤ year ≤ datetime.MAXYEAR = 9999`,
`1 ≤ month ≤ 12`, `1 ≤ day ≤ days_in_month(year, month)`.  Fields out of
range raise `ValueError`. -/
def pydate_valid (y m d : ℤ) : Bool :=
  decide (1 ≤ y) && decide (y ≤ 9999) && decide (1 ≤ m) && decide (m ≤ 12) &&
    decide (1 ≤ d) && decide (d ≤ pydate_days_in_month y m)

/-- Comparison of `datetime.date` values: lexicographic on (year, month, day). -/
def pydate_lt (y1 m1 d1 y2 m2 d2 : ℤ) : Bool :=
  y1 < y2 || (y1 == y2 && (m1 < m2 || (m1 == m2 && d1 < d2)))

/-- Function `_date_time_to_mjd(year, month, day, hours, minutes, seconds)`
(src lines 295-328).  The `date(year, month, day)` construction on src
line 310 raises `ValueError` for out-of-range fields — in particular for
any `year < 1` — which is modelled as `Except.error .valueError`.
The Python `//` on integers is floor division (`Int.fdiv`). -/
def _date_time_to_mjd (year month day hours minutes seconds : ℤ) : Except PyError ℚ :=
  let m0 : ℤ := month
  let y0 : ℤ := if year < 0 then year + 1 else year
  let m : ℤ := if month < 3 then m0 + 12 else m0
  let y : ℤ := if month < 3 then y0 - 1 else y0
  if pydate_valid year month day = false then .error .valueError else
  -- Handle differently before and after Julian-Gregorian changeover
  let b : ℤ :=
    if pydate_lt year month day 1582 10 14 then 0
    else
      let n_centuries : ℤ := Int.fdiv y 100
      2 - n_centuries + Int.fdiv n_centuries 4
  -- Handle differently before and after epoch zero point
  let c : ℚ :=
    if y < 0 then ((365.25 * (y : ℚ)) - 0.75) - 694025
    else (365.25 * (y : ℚ)) - 694025
  let d : ℚ := 30.6001 * ((m : ℚ) + 1)
  let dublin_jd : ℚ := (b : ℚ) + c + d + (day : ℚ) - 0.5
  let dublin_jd2 : ℚ :=
    dublin_jd + (hours : ℚ) / 24 + (minutes : ℚ) / 1440 + (seconds : ℚ) / 86400
  .ok (dublin_jd2 + 15019.5)

/-- Src lines 262-264: if the fractional day is exactly 1, normalize it to 0
and carry into the integer day count. -/
def _norm_day (day_int : ℤ) (day_frac : ℚ) : ℤ × ℚ :=
  if day_frac = 1 then (day_int + 1, 0) else (day_int, day_frac)

/-- Src lines 266-270: Gregorian-calendar leap correction applied to the
integer day count when the date falls after the Julian-Gregorian change
(`_gregorian_change_date = -115860.0` in Dublin JD). -/
def _gregorian_correct (day_int : ℤ) : ℤ :=
  if (-115860.0 : ℚ) < (day_int : ℚ) then
    let leapskips : ℤ := ⌊(day_int : ℚ) / 36524.25 + 14.99835726⌋
    day_int + (1 + leapskips - ⌊(leapskips : ℚ) / 4.0⌋)
  else day_int

/-- Src line 273: `b = floor((day_int / _days_per_year) + .802601)`. -/
def dB (k : ℤ) : ℤ := ⌊(k : ℚ) / 365.25 + 0.802601⌋

/-- Src line 274: `ce = day_int - floor((_days_per_year * b) + .750001) + 416`. -/
def dCE (k : ℤ) : ℤ := k - ⌊365.25 * (dB k : ℚ) + 0.750001⌋ + 416

/-- Src line 275: `g = floor(ce / 30.6001)`. -/
def dG (k : ℤ) : ℤ := ⌊(dCE k : ℚ) / 30.6001⌋

/-- Src line 277 without the fractional-day summand:
`ce - floor(30.6001 * g)` (the integer part of the `day` value). -/
def dDay0 (k : ℤ) : ℤ := dCE k - ⌊30.6001 * (dG k : ℚ)⌋

/-- Src lines 276 and 280-281: `month = int(g - 1)`, replaced by
`int(g - 13)` when `g > 13.5`. -/
def dMonth (k : ℤ) : ℤ := if (13.5 : ℚ) < (dG k : ℚ) then dG k - 13 else dG k - 1

/-- Src lines 278 and 282-283: `year = int(b + 1899)`, replaced by
`int(b + 1900)` when `month < 2.5`. -/
def dYearRaw (k : ℤ) : ℤ :=
  if ((dMonth k : ℚ) < 2.5) then dB k + 1900 else dB k + 1899

/-- Src lines 284-285: `if year < 1: year -= 1` (no year zero). -/
def dYear (k : ℤ) : ℤ := if dYearRaw k < 1 then dYearRaw k - 1 else dYearRaw k

/-- Src lines 272-285: the "b/ce/g" arithmetic decomposition of the
(Gregorian-corrected) day count into (year, month, day);
`day = int(ce - floor(30.6001 * g) + day_frac)`. -/
def _decompose (day_int : ℤ) (day_frac : ℚ) : ℤ × ℤ × ℤ :=
  (dYear day_int, dMonth day_int, pytrunc ((dDay0 day_int : ℚ) + day_frac))

/-- Src lines 287-289: hour/minute/second from the fractional day by
successive multiplication and `int()` truncation. -/
def _time_of_frac (day_frac : ℚ) : ℤ × ℤ × ℤ :=
  let hour : ℤ := pytrunc (24 * day_frac)
  let minute : ℤ := pytrunc ((day_frac - (hour : ℚ) / 24) * 24 * 60)
  let second : ℤ :=
    pytrunc ((day_frac - (hour : ℚ) / 24 - (minute : ℚ) / (24 * 60)) * 24 * 3600)
  (hour, minute, second)

/-- Function `_mjd_to_year_date_time(mjd)` (src lines 238-292).  The source formats
the result as `(YYYY, "MM/DD", "HH:MM:SS")` with zero-padded two-digit
fields; the numeric fields are kept here:
`(year, (month, day), (hour, minute, second))`.
`days1900 = mjd + _mjd_to_dublin + 0.5` with `_mjd_to_dublin = -15019.5`. -/
def _mjd_to_year_date_time (mjd : ℚ) : ℤ × (ℤ × ℤ) × (ℤ × ℤ × ℤ) :=
  let days1900 : ℚ := mjd + (-15019.5) + 0.5
  let p := _norm_day ⌊days1900⌋ (days1900 - (⌊days1900⌋ : ℚ))
  let day_int := _gregorian_correct p.1
  let ymd := _decompose day_int p.2
  (ymd.1, (ymd.2.1, ymd.2.2), _time_of_frac p.2)

/-- A fetch-request interval as built by `mean_focus` (src lines 166-170):
`(year, date, start_time, stop_time)` with `date = (month, day)` and the
times at minute resolution.  The source carries `date` as a zero-padded
`"MM/DD"` string and the times as `"HH:MM"` strings (src lines 162-164 chop
the seconds off `"HH:MM:SS"` with `rsplit` on the last colon; the literals
23:59 and 00:00 correspond to `(23, 59)` / `(0, 0)`); zero-padded
two-digit formatting is injective on the month/day/hour/minute ranges the
decomposition produces, so the numeric fields are kept. -/
structure FetchInterval where
  year : ℤ
  date : ℤ × ℤ
  start : ℤ × ℤ
  stop : ℤ × ℤ
deriving DecidableEq, Repr

/-- Src lines 155-170 of `mean_focus`: pad the exposure span by ten minutes
(`ten_mins = 10 / (24 * 60)`) outward on each side, decompose both padded
endpoints with `_mjd_to_year_date_time`, chop the seconds off both
time-of-day values, and build one fetch interval if the two `"MM/DD"` date
fields are equal, two (start-day tail, then end-day head) otherwise. -/
def mean_focus_intervals (expstart expend : ℚ) : List FetchInterval :=
  let ten_mins : ℚ := 10 / (24 * 60)
  let expstart_pad : ℚ := expstart - ten_mins
  let expend_pad : ℚ := expend + ten_mins
  let s := _mjd_to_year_date_time expstart_pad
  let e := _mjd_to_year_date_time expend_pad
  let start_yr := s.1
  let start_date := s.2.1
  let start_time := (s.2.2.1, s.2.2.2.1)
  let stop_yr := e.1
  let stop_date := e.2.1
  let stop_time := (e.2.2.1, e.2.2.2.1)
  if start_date ≠ stop_date then
    [⟨start_yr, start_date, start_time, (23, 59)⟩,
     ⟨stop_yr, stop_date, (0, 0), stop_time⟩]
  else
    [⟨start_yr, start_date, start_time, stop_time⟩]

/-- A fetched model table, already parsed into rows; only the
`JulianDate` and `Model` columns are consumed downstream, so a row is a
`(JulianDate, Model)` pair. -/
abbrev SampleTable := List (ℚ × ℚ)

/-- Src lines 172-179: fetch a text table for each interval in order and
concatenate (after dropping the header line of each table, which the parsed
representation already excludes); a raised `HTTPResponseError` aborts the
loop and propagates to the enclosing `try`. -/
def fetch_loop (fetch : FetchInterval → Except PyError SampleTable) :
    List FetchInterval → Except PyError SampleTable
  | [] => .ok []
  | iv :: rest => do
    let t ← fetch iv
    let ts ← fetch_loop fetch rest
    .ok (t ++ ts)

/-- The value returned by `mean_focus`: a bare mean, or a 2-tuple
`(mean, variance)` when `with_var=True`.  `Option ℚ` models a Python
value that is either a float or `None`. -/
inductive MeanFocusValue where
  | single (mean : Option ℚ)
  | pair (mean var : Option ℚ)
deriving DecidableEq, Repr

/-- Function `mean_focus(expstart, expend, camera, spline_order, not_found_value,
with_var)` (src lines 128-206), for endpoints already normalized to MJD
floats (string endpoints are converted by `_date_time_to_mjd` on src lines
148-154 before any of the logic modelled here runs; `camera` is only
passed through to the fetch and is hidden inside `fetch`).

External collaborators are parameters:
* `fetch iv` models `get_model_data(year, date, start, stop, camera,
  format="TXT")` followed by the header strip and `genfromtxt` parse;
* `integral ds k a b` models `UnivariateSpline(jd, model, k).integral(a, b)`;
* `trapz_sq ds k a b` models `trapz(spline(xvals)**2, xvals)` with
  `xvals = linspace(a, b, 2*len(ds))`.

The divisions by `(expend - expstart)` (src lines 188 and 192) are Python
float divisions and raise `ZeroDivisionError` on an empty span.  The
`except HTTPResponseError` clause (src lines 195-201) substitutes
`not_found_value` when `err.response.status == httplib.NOT_FOUND or
not_found_value is not None` and re-raises otherwise; any other exception
propagates. -/
def mean_focus (fetch : FetchInterval → Except PyError SampleTable)
    (integral trapz_sq : SampleTable → ℕ → ℚ → ℚ → ℚ)
    (expstart expend : ℚ) (spline_order : ℕ)
    (not_found_value : Option ℚ) (with_var : Bool) :
    Except PyError MeanFocusValue :=
  let attempt : Except PyError (Option ℚ × Option ℚ) := do
    let focus_data ← fetch_loop fetch (mean_focus_intervals expstart expend)
    let mean_foc ← pydiv (integral focus_data spline_order expstart expend)
                         (expend - expstart)
    if with_var then
      let v ← pydiv (trapz_sq focus_data spline_order expstart expend)
                    (expend - expstart)
      .ok (some mean_foc, some (v - mean_foc ^ 2))
    else
      .ok (some mean_foc, none)
  match attempt with
  | .ok (m, v) => .ok (if with_var then .pair m v else .single m)
  | .error (.http status) =>
      if status = 404 ∨ not_found_value ≠ none then
        .ok (if with_var then .pair not_found_value not_found_value
             else .single not_found_value)
      else .error (.http status)
  | .error e => .error e

/-- A retrieval (GET) request issued by `get_model_data` after the
generation POST: the text-table URL or the png-plot URL. -/
inductive GetRequest where
  | txtTable
  | pngPlot
deriving DecidableEq, Repr

/-- What `get_model_data` returns (src lines 120-125): `png_data` alone
for PNG format, `txt_data` alone for TXT, and the 2-tuple
`(txt_data, png_data)` otherwise.  `Option` models variables left at
their `None` initialization (src line 102). -/
inductive ModelDataValue (τ π : Type) where
  | txtOnly (txt : Option τ)
  | pngOnly (png : Option π)
  | tuple (txt : Option τ) (png : Option π)
deriving DecidableEq, Repr

/-- Function `get_model_data(year, date, start, stop, camera, format)` (src lines
54-125).  The HTTP transport is abstracted: `post_status` is the response
status of the generation POST (src lines 84-91), and `txt_status`/`txt_body`
resp. `png_status`/`png_body` describe the responses the server would give
to the two possible retrieval GETs (src lines 101-118).  A non-OK (200)
status raises `HTTPResponseError`.  The returned list records which
retrieval GETs were actually issued, in order; `year`/`date`/`start`/`stop`
/`camera` only shape the POST body and the file URLs and are omitted. -/
def get_model_data (τ π : Type) (post_status : ℕ)
    (txt_status : ℕ) (txt_body : τ) (png_status : ℕ) (png_body : π)
    (format : String) :
    Except PyError (List GetRequest × ModelDataValue τ π) := do
  if post_status ≠ 200 then .error (.http post_status) else
  let (r1, txt_data) ←
    (if format = "TXT" ∨ format = "BOTH" then
      if txt_status ≠ 200 then .error (.http txt_status)
      else .ok ([GetRequest.txtTable], some txt_body)
    else .ok ([], none) : Except PyError (List GetRequest × Option τ))
  let (r2, png_data) ←
    (if format = "PNG" ∨ format = "BOTH" then
      if png_status ≠ 200 then .error (.http png_status)
      else .ok ([GetRequest.pngPlot], some png_body)
    else .ok ([], none) : Except PyError (List GetRequest × Option π))
  if format = "PNG" then .ok (r1 ++ r2, .pngOnly png_data)
  else if format = "TXT" then .ok (r1 ++ r2, .txtOnly txt_data)
  else .ok (r1 ++ r2, .tuple txt_data png_data)

/-! ## Integer-arithmetic counterparts of the decomposition

The floors of rational expressions appearing in `_mjd_to_year_date_time`
are bridged to integer (Euclidean) division so that finite checks can be
evaluated by `decide` over `ℤ` alone. -/

def bInt (k : ℤ) : ℤ := (4000000 * k + 1172600061) / 1461000000
def ceInt (k : ℤ) : ℤ := k - (365250000 * bInt k + 750001) / 1000000 + 416
def gInt (k : ℤ) : ℤ := (10000 * ceInt k) / 306001
def day0Int (k : ℤ) : ℤ := ceInt k - (306001 * gInt k) / 10000
def monthInt (k : ℤ) : ℤ := if 13 < gInt k then gInt k - 13 else gInt k - 1
def yearRawInt (k : ℤ) : ℤ := if monthInt k < 3 then bInt k + 1900 else bInt k + 1899
/-! ## Integer counterpart and monotonicity of the Gregorian correction -/

def lInt (k : ℤ) : ℤ := (400000000 * k + 219121500061422) / 14609700000000
def corrInt (k : ℤ) : ℤ :=
  if -115860 < k then k + (1 + lInt k - lInt k / 4) else k
/-! ## Strict growth of the decomposition over one 1461-day window -/

def dateLtB (a b : ℤ × ℤ × ℤ) : Bool :=
  decide (a.1 < b.1) ||
    (decide (a.1 = b.1) &&
      (decide (a.2.1 < b.2.1) ||
        (decide (a.2.1 = b.2.1) && decide (a.2.2 < b.2.2))))
def rawTripleInt (k : ℤ) : ℤ × ℤ × ℤ := (yearRawInt k, monthInt k, day0Int k)
def windowStepOk : Bool :=
  (List.range 1460).all fun r => dateLtB (rawTripleInt (r : ℤ)) (rawTripleInt ((r : ℤ) + 1))
def windowWrapOk : Bool :=
  dateLtB (rawTripleInt 1460) (yearRawInt 0 + 4, monthInt 0, day0Int 0)
def windowRangeOk : Bool :=
  (List.range 1461).all fun r =>
    decide (1 ≤ monthInt (r : ℤ)) && decide (monthInt (r : ℤ) ≤ 12) &&
      decide (1 ≤ day0Int (r : ℤ)) && decide (day0Int (r : ℤ) ≤ 31)
/-! ## Strict lexicographic growth of the decomposed date -/

def dateLtP (y1 m1 d1 y2 m2 d2 : ℤ) : Prop :=
  y1 < y2 ∨ (y1 = y2 ∧ (m1 < m2 ∨ (m1 = m2 ∧ d1 < d2)))
def timeLEP (h1 m1 s1 h2 m2 s2 : ℤ) : Prop :=
  h1 < h2 ∨ (h1 = h2 ∧ (m1 < m2 ∨ (m1 = m2 ∧ s1 ≤ s2)))
/-- Calendar ordering used by the monotonicity claim: lexicographic non-strict comparison on
(year, month, day, hour, minute, second) as produced by
`_mjd_to_year_date_time`. -/
def calendar_le (a b : ℤ × (ℤ × ℤ) × (ℤ × ℤ × ℤ)) : Bool :=
  decide (a.1 < b.1) || (decide (a.1 = b.1) && (
    decide (a.2.1.1 < b.2.1.1) || (decide (a.2.1.1 = b.2.1.1) && (
      decide (a.2.1.2 < b.2.1.2) || (decide (a.2.1.2 = b.2.1.2) && (
        decide (a.2.2.1 < b.2.2.1) || (decide (a.2.2.1 = b.2.2.1) && (
          decide (a.2.2.2.1 < b.2.2.2.1) || (decide (a.2.2.2.1 = b.2.2.2.1) &&
            decide (a.2.2.2.2 ≤ b.2.2.2.2))))))))))

theorem dB_eq (k : ℤ) : dB k = bInt k := by
  unfold dB bInt
  have h : (k : ℚ) / 365.25 + 0.802601
      = ((4000000 * k + 1172600061 : ℤ) : ℚ) / ((1461000000 : ℕ) : ℚ) := by
    push_cast
    norm_num
    ring
  rw [h, Rat.floor_intCast_div_natCast]
  norm_num
theorem dCE_eq (k : ℤ) : dCE k = ceInt k := by
  unfold dCE ceInt
  rw [dB_eq]
  have h : 365.25 * ((bInt k : ℤ) : ℚ) + 0.750001
      = ((365250000 * bInt k + 750001 : ℤ) : ℚ) / ((1000000 : ℕ) : ℚ) := by
    push_cast
    norm_num
    ring
  rw [h, Rat.floor_intCast_div_natCast]
  norm_num
theorem dG_eq (k : ℤ) : dG k = gInt k := by
  unfold dG gInt
  rw [dCE_eq]
  have h : ((ceInt k : ℤ) : ℚ) / 30.6001
      = ((10000 * ceInt k : ℤ) : ℚ) / ((306001 : ℕ) : ℚ) := by
    push_cast
    norm_num
    ring
  rw [h, Rat.floor_intCast_div_natCast]
  norm_num
theorem dDay0_eq (k : ℤ) : dDay0 k = day0Int k := by
  unfold dDay0 day0Int
  rw [dCE_eq, dG_eq]
  have h : 30.6001 * ((gInt k : ℤ) : ℚ)
      = ((306001 * gInt k : ℤ) : ℚ) / ((10000 : ℕ) : ℚ) := by
    push_cast
    norm_num
    ring
  rw [h, Rat.floor_intCast_div_natCast]
  norm_num
theorem intCast_gt_13p5 (g : ℤ) : ((13.5 : ℚ) < (g : ℚ)) ↔ 13 < g := by
  constructor
  · intro h
    by_contra hc
    push_neg at hc
    have : (g : ℚ) ≤ 13 := by exact_mod_cast hc
    linarith
  · intro h
    have : (14 : ℚ) ≤ (g : ℚ) := by exact_mod_cast h
    linarith
theorem intCast_lt_2p5 (m : ℤ) : ((m : ℚ) < 2.5) ↔ m < 3 := by
  constructor
  · intro h
    by_contra hc
    push_neg at hc
    have : (3 : ℚ) ≤ (m : ℚ) := by exact_mod_cast hc
    linarith
  · intro h
    have : (m : ℚ) ≤ 2 := by exact_mod_cast Int.lt_add_one_iff.mp h
    linarith
theorem dMonth_eq (k : ℤ) : dMonth k = monthInt k := by
  unfold dMonth monthInt
  rw [dG_eq]
  simp only [intCast_gt_13p5]
theorem dYearRaw_eq (k : ℤ) : dYearRaw k = yearRawInt k := by
  unfold dYearRaw yearRawInt
  rw [dMonth_eq, dB_eq]
  simp only [intCast_lt_2p5]
/-! ## Four-year (1461-day) periodicity of the Julian decomposition -/

theorem dB_period (k : ℤ) : dB (k + 1461) = dB k + 4 := by
  unfold dB
  have h : ((k + 1461 : ℤ) : ℚ) / 365.25 + 0.802601
      = ((k : ℚ) / 365.25 + 0.802601) + ((4 : ℤ) : ℚ) := by
    push_cast
    rw [add_div]
    try norm_num
    try ring
  rw [h, Int.floor_add_int]
theorem dB_shift (q r : ℤ) : dB (1461 * q + r) = dB r + 4 * q := by
  induction q using Int.induction_on with
  | hz => simp
  | hp n ih =>
      have h : 1461 * ((n : ℤ) + 1) + r = (1461 * n + r) + 1461 := by ring
      rw [h, dB_period, ih]
      ring
  | hn n ih =>
      have h : 1461 * (-(n : ℤ) - 1) + r + 1461 = 1461 * (-(n : ℤ)) + r := by ring
      have h2 := dB_period (1461 * (-(n : ℤ) - 1) + r)
      rw [h] at h2
      omega
theorem dCE_shift (q r : ℤ) : dCE (1461 * q + r) = dCE r := by
  unfold dCE
  rw [dB_shift]
  have h : 365.25 * ((dB r + 4 * q : ℤ) : ℚ) + 0.750001
      = (365.25 * ((dB r : ℤ) : ℚ) + 0.750001) + ((1461 * q : ℤ) : ℚ) := by
    push_cast
    try ring_nf
    try norm_num
    try ring
  rw [h, Int.floor_add_int]
  ring
theorem dG_shift (q r : ℤ) : dG (1461 * q + r) = dG r := by
  unfold dG
  rw [dCE_shift]
theorem dDay0_shift (q r : ℤ) : dDay0 (1461 * q + r) = dDay0 r := by
  unfold dDay0
  rw [dCE_shift, dG_shift]
theorem dMonth_shift (q r : ℤ) : dMonth (1461 * q + r) = dMonth r := by
  unfold dMonth
  rw [dG_shift]
theorem dYearRaw_shift (q r : ℤ) : dYearRaw (1461 * q + r) = dYearRaw r + 4 * q := by
  unfold dYearRaw
  rw [dMonth_shift, dB_shift]
  split_ifs <;> ring
theorem leapskips_eq (k : ℤ) :
    ⌊(k : ℚ) / 36524.25 + 14.99835726⌋ = lInt k := by
  unfold lInt
  have h : (k : ℚ) / 36524.25 + 14.99835726
      = ((400000000 * k + 219121500061422 : ℤ) : ℚ) / ((14609700000000 : ℕ) : ℚ) := by
    push_cast
    try norm_num
    try ring
  rw [h, Rat.floor_intCast_div_natCast]
  norm_num
theorem floor_quarter (L : ℤ) : ⌊(L : ℚ) / 4.0⌋ = L / 4 := by
  have h : (L : ℚ) / 4.0 = ((L : ℤ) : ℚ) / ((4 : ℕ) : ℚ) := by
    norm_num
  rw [h, Rat.floor_intCast_div_natCast]
  norm_num
theorem neg115860_cast_lt (k : ℤ) : ((-115860.0 : ℚ) < (k : ℚ)) ↔ -115860 < k := by
  have h : (-115860.0 : ℚ) = ((-115860 : ℤ) : ℚ) := by norm_num
  rw [h, Int.cast_lt]
theorem _gregorian_correct_eq (k : ℤ) : _gregorian_correct k = corrInt k := by
  unfold _gregorian_correct corrInt
  simp only [neg115860_cast_lt, leapskips_eq, floor_quarter]
theorem lInt_mono {k1 k2 : ℤ} (h : k1 ≤ k2) : lInt k1 ≤ lInt k2 := by
  unfold lInt
  apply Int.ediv_le_ediv (by norm_num)
  omega
theorem lInt_value_boundary : lInt (-115859) = 11 := by decide
theorem corrInt_strictMono {k1 k2 : ℤ} (h : k1 < k2) : corrInt k1 < corrInt k2 := by
  unfold corrInt
  split_ifs with h1 h2 h2
  · have hL := lInt_mono (show k1 ≤ k2 by omega)
    omega
  · omega
  · have hb : lInt (-115859) ≤ lInt k2 := lInt_mono (by omega)
    rw [lInt_value_boundary] at hb
    omega
  · omega
set_option maxRecDepth 40000 in
theorem windowStepOk_true : windowStepOk = true := by decide
theorem windowWrapOk_true : windowWrapOk = true := by decide
set_option maxRecDepth 40000 in
theorem windowRangeOk_true : windowRangeOk = true := by decide
theorem all_range_spec {p : ℕ → Bool} {n : ℕ}
    (h : (List.range n).all p = true) : ∀ r : ℕ, r < n → p r = true := by
  intro r hr
  rw [List.all_eq_true] at h
  exact h r (List.mem_range.mpr hr)
theorem windowStep_spec {r : ℤ} (h0 : 0 ≤ r) (h1 : r < 1460) :
    dateLtB (rawTripleInt r) (rawTripleInt (r + 1)) = true := by
  have hall : (List.range 1460).all
      (fun r => dateLtB (rawTripleInt (r : ℤ)) (rawTripleInt ((r : ℤ) + 1))) = true :=
    windowStepOk_true
  have hx := all_range_spec hall r.toNat (by omega)
  simp only [] at hx
  rwa [Int.toNat_of_nonneg h0] at hx
theorem windowRange_spec {r : ℤ} (h0 : 0 ≤ r) (h1 : r < 1461) :
    1 ≤ monthInt r ∧ monthInt r ≤ 12 ∧ 1 ≤ day0Int r ∧ day0Int r ≤ 31 := by
  have hall : (List.range 1461).all
      (fun r => decide (1 ≤ monthInt (r : ℤ)) && decide (monthInt (r : ℤ) ≤ 12) &&
        decide (1 ≤ day0Int (r : ℤ)) && decide (day0Int (r : ℤ) ≤ 31)) = true :=
    windowRangeOk_true
  have hx := all_range_spec hall r.toNat (by omega)
  simp only [Bool.and_eq_true, decide_eq_true_eq] at hx
  rw [Int.toNat_of_nonneg h0] at hx
  omega
/-- Month and integer day part of the decomposition stay in calendar range
for every integer day count. -/
theorem month_day_range (k : ℤ) :
    1 ≤ dMonth k ∧ dMonth k ≤ 12 ∧ 1 ≤ dDay0 k ∧ dDay0 k ≤ 31 := by
  have hq : 1461 * (k / 1461) + k % 1461 = k := Int.ediv_add_emod k 1461
  have h0 : 0 ≤ k % 1461 := Int.emod_nonneg k (by norm_num)
  have h1 : k % 1461 < 1461 := Int.emod_lt_of_pos k (by norm_num)
  have hm := dMonth_shift (k / 1461) (k % 1461)
  have hd := dDay0_shift (k / 1461) (k % 1461)
  rw [hq] at hm hd
  have hr := windowRange_spec h0 h1
  rw [← dMonth_eq, ← dDay0_eq] at hr
  omega
theorem dateLtB_iff {y1 m1 d1 y2 m2 d2 : ℤ} :
    dateLtB (y1, m1, d1) (y2, m2, d2) = true ↔ dateLtP y1 m1 d1 y2 m2 d2 := by
  unfold dateLtB dateLtP
  simp [Bool.or_eq_true, Bool.and_eq_true, decide_eq_true_eq]
theorem dateLtP_trans {y1 m1 d1 y2 m2 d2 y3 m3 d3 : ℤ}
    (h1 : dateLtP y1 m1 d1 y2 m2 d2) (h2 : dateLtP y2 m2 d2 y3 m3 d3) :
    dateLtP y1 m1 d1 y3 m3 d3 := by
  unfold dateLtP at h1 h2 ⊢
  omega
theorem rawStep (k : ℤ) :
    dateLtP (dYearRaw k) (dMonth k) (dDay0 k)
      (dYearRaw (k + 1)) (dMonth (k + 1)) (dDay0 (k + 1)) := by
  have hq : 1461 * (k / 1461) + k % 1461 = k := Int.ediv_add_emod k 1461
  have h0 : 0 ≤ k % 1461 := Int.emod_nonneg k (by norm_num)
  have h1 : k % 1461 < 1461 := Int.emod_lt_of_pos k (by norm_num)
  have hYk := dYearRaw_shift (k / 1461) (k % 1461)
  have hMk := dMonth_shift (k / 1461) (k % 1461)
  have hDk := dDay0_shift (k / 1461) (k % 1461)
  rw [hq] at hYk hMk hDk
  by_cases hr : k % 1461 = 1460
  · have hk1 : k + 1 = 1461 * (k / 1461 + 1) + 0 := by omega
    have hY1 := dYearRaw_shift (k / 1461 + 1) 0
    have hM1 := dMonth_shift (k / 1461 + 1) 0
    have hD1 := dDay0_shift (k / 1461 + 1) 0
    rw [← hk1] at hY1 hM1 hD1
    have hw : dateLtB (rawTripleInt 1460) (yearRawInt 0 + 4, monthInt 0, day0Int 0)
        = true := windowWrapOk_true
    unfold rawTripleInt at hw
    rw [dateLtB_iff] at hw
    rw [← dYearRaw_eq, ← dMonth_eq, ← dDay0_eq, ← dYearRaw_eq, ← dMonth_eq,
      ← dDay0_eq] at hw
    rw [hr] at hYk hMk hDk
    unfold dateLtP at hw ⊢
    omega
  · have hk1 : k + 1 = 1461 * (k / 1461) + (k % 1461 + 1) := by omega
    have hY1 := dYearRaw_shift (k / 1461) (k % 1461 + 1)
    have hM1 := dMonth_shift (k / 1461) (k % 1461 + 1)
    have hD1 := dDay0_shift (k / 1461) (k % 1461 + 1)
    rw [← hk1] at hY1 hM1 hD1
    have hw := windowStep_spec h0 (by omega)
    unfold rawTripleInt at hw
    rw [dateLtB_iff] at hw
    rw [← dYearRaw_eq, ← dMonth_eq, ← dDay0_eq, ← dYearRaw_eq, ← dMonth_eq,
      ← dDay0_eq] at hw
    unfold dateLtP at hw ⊢
    omega
theorem rawChainNat : ∀ (n : ℕ) (k : ℤ),
    dateLtP (dYearRaw k) (dMonth k) (dDay0 k)
      (dYearRaw (k + 1 + n)) (dMonth (k + 1 + n)) (dDay0 (k + 1 + n))
  | 0, k => by simpa using rawStep k
  | (n + 1), k => by
      have h1 := rawStep k
      have h2 := rawChainNat n (k + 1)
      have he : k + 1 + 1 + (n : ℤ) = k + 1 + ((n : ℤ) + 1) := by ring
      rw [he] at h2
      have he2 : k + 1 + ((n + 1 : ℕ) : ℤ) = k + 1 + ((n : ℤ) + 1) := by push_cast; ring
      rw [he2]
      exact dateLtP_trans h1 h2
theorem rawLt {k1 k2 : ℤ} (h : k1 < k2) :
    dateLtP (dYearRaw k1) (dMonth k1) (dDay0 k1)
      (dYearRaw k2) (dMonth k2) (dDay0 k2) := by
  have hn : k2 = k1 + 1 + ((k2 - k1 - 1).toNat : ℤ) := by omega
  rw [hn]
  exact rawChainNat _ k1
theorem finalLt {k1 k2 : ℤ} (h : k1 < k2) :
    dateLtP (dYear k1) (dMonth k1) (dDay0 k1)
      (dYear k2) (dMonth k2) (dDay0 k2) := by
  have hr := rawLt h
  unfold dYear
  unfold dateLtP at hr ⊢
  split_ifs <;> omega
/-- Strict growth of the final (year, month, integer-day) under a strictly
larger Gregorian-corrected day count. -/
theorem dateLt_of_lt {k1 k2 : ℤ} (h : k1 < k2) :
    dateLtP (dYear (_gregorian_correct k1)) (dMonth (_gregorian_correct k1))
      (dDay0 (_gregorian_correct k1))
      (dYear (_gregorian_correct k2)) (dMonth (_gregorian_correct k2))
      (dDay0 (_gregorian_correct k2)) := by
  have hc : _gregorian_correct k1 < _gregorian_correct k2 := by
    rw [_gregorian_correct_eq, _gregorian_correct_eq]
    exact corrInt_strictMono h
  exact finalLt hc
/-! ## Time-of-day: truncation equals floor and is monotone in the fraction -/

theorem pytrunc_eq_floor {q : ℚ} (h : 0 ≤ q) : pytrunc q = ⌊q⌋ := by
  unfold pytrunc
  exact if_pos h
theorem pytrunc_int_add {n : ℤ} {f : ℚ} (hn : 0 ≤ n) (h0 : 0 ≤ f) (h1 : f < 1) :
    pytrunc ((n : ℚ) + f) = n := by
  have hnn : (0 : ℚ) ≤ (n : ℚ) + f := by
    have : (0 : ℚ) ≤ (n : ℚ) := by exact_mod_cast hn
    linarith
  rw [pytrunc_eq_floor hnn, Int.floor_int_add, Int.floor_eq_zero_iff.mpr ⟨h0, h1⟩]
  ring
theorem time_of_frac_eq {f : ℚ} (h0 : 0 ≤ f) :
    _time_of_frac f
      = (⌊24 * f⌋, ⌊1440 * f⌋ - 60 * ⌊24 * f⌋,
         ⌊86400 * f⌋ - 60 * ⌊1440 * f⌋) := by
  unfold _time_of_frac
  dsimp only
  have hh : pytrunc (24 * f) = ⌊24 * f⌋ := pytrunc_eq_floor (by positivity)
  rw [hh]
  have hfl : ((⌊24 * f⌋ : ℤ) : ℚ) ≤ 24 * f := Int.floor_le _
  have harg1 : (f - ((⌊24 * f⌋ : ℤ) : ℚ) / 24) * 24 * 60
      = 1440 * f + ((-60 * ⌊24 * f⌋ : ℤ) : ℚ) := by
    push_cast
    ring
  have hm : pytrunc ((f - ((⌊24 * f⌋ : ℤ) : ℚ) / 24) * 24 * 60)
      = ⌊1440 * f⌋ - 60 * ⌊24 * f⌋ := by
    rw [harg1, pytrunc_eq_floor (by push_cast; linarith), Int.floor_add_int]
    ring
  rw [hm]
  have hfl2 : ((⌊1440 * f⌋ : ℤ) : ℚ) ≤ 1440 * f := Int.floor_le _
  have harg2 : (f - ((⌊24 * f⌋ : ℤ) : ℚ) / 24
        - ((⌊1440 * f⌋ - 60 * ⌊24 * f⌋ : ℤ) : ℚ) / (24 * 60)) * 24 * 3600
      = 86400 * f + ((-60 * ⌊1440 * f⌋ : ℤ) : ℚ) := by
    push_cast
    ring
  have hs : pytrunc ((f - ((⌊24 * f⌋ : ℤ) : ℚ) / 24
        - ((⌊1440 * f⌋ - 60 * ⌊24 * f⌋ : ℤ) : ℚ) / (24 * 60)) * 24 * 3600)
      = ⌊86400 * f⌋ - 60 * ⌊1440 * f⌋ := by
    rw [harg2, pytrunc_eq_floor (by push_cast; linarith), Int.floor_add_int]
    ring
  rw [hs]
theorem time_of_frac_le {f1 f2 : ℚ} (h0 : 0 ≤ f1) (h12 : f1 ≤ f2) :
    timeLEP (_time_of_frac f1).1 (_time_of_frac f1).2.1 (_time_of_frac f1).2.2
      (_time_of_frac f2).1 (_time_of_frac f2).2.1 (_time_of_frac f2).2.2 := by
  rw [time_of_frac_eq h0, time_of_frac_eq (le_trans h0 h12)]
  have m24 : ⌊24 * f1⌋ ≤ ⌊24 * f2⌋ := Int.floor_mono (by linarith)
  have m1440 : ⌊1440 * f1⌋ ≤ ⌊1440 * f2⌋ := Int.floor_mono (by linarith)
  have m86400 : ⌊86400 * f1⌋ ≤ ⌊86400 * f2⌋ := Int.floor_mono (by linarith)
  unfold timeLEP
  dsimp only
  omega
/-! ## Evaluation form of `_mjd_to_year_date_time` and monotonicity -/

theorem mjd_eval (m : ℚ) :
    _mjd_to_year_date_time m
      = (dYear (_gregorian_correct ⌊m - 15019⌋),
         (dMonth (_gregorian_correct ⌊m - 15019⌋),
          dDay0 (_gregorian_correct ⌊m - 15019⌋)),
         _time_of_frac (Int.fract (m - 15019))) := by
  unfold _mjd_to_year_date_time
  dsimp only
  have h1 : m + (-15019.5) + 0.5 = m - 15019 := by
    norm_num
    ring
  rw [h1]
  have h2 : m - 15019 - (⌊m - 15019⌋ : ℚ) = Int.fract (m - 15019) :=
    Int.self_sub_floor (m - 15019)
  rw [h2]
  have h3 : _norm_day ⌊m - 15019⌋ (Int.fract (m - 15019))
      = (⌊m - 15019⌋, Int.fract (m - 15019)) := by
    unfold _norm_day
    rw [if_neg (ne_of_lt (Int.fract_lt_one _))]
  rw [h3]
  unfold _decompose
  dsimp only
  rw [pytrunc_int_add
    (by have := month_day_range (_gregorian_correct ⌊m - 15019⌋); omega)
    (Int.fract_nonneg _) (Int.fract_lt_one _)]
theorem calendar_le_iff {a b : ℤ × (ℤ × ℤ) × (ℤ × ℤ × ℤ)} :
    calendar_le a b = true ↔
      (a.1 < b.1 ∨ (a.1 = b.1 ∧
        (a.2.1.1 < b.2.1.1 ∨ (a.2.1.1 = b.2.1.1 ∧
          (a.2.1.2 < b.2.1.2 ∨ (a.2.1.2 = b.2.1.2 ∧
            (a.2.2.1 < b.2.2.1 ∨ (a.2.2.1 = b.2.2.1 ∧
              (a.2.2.2.1 < b.2.2.2.1 ∨ (a.2.2.2.1 = b.2.2.2.1 ∧
                a.2.2.2.2 ≤ b.2.2.2.2)))))))))) := by
  unfold calendar_le
  simp [Bool.or_eq_true, Bool.and_eq_true, decide_eq_true_eq]
theorem mjd_monotone_aux {m1 m2 : ℚ} (h : m1 < m2) :
    calendar_le (_mjd_to_year_date_time m1) (_mjd_to_year_date_time m2) = true := by
  rw [mjd_eval, mjd_eval, calendar_le_iff]
  dsimp only
  have hk : ⌊m1 - 15019⌋ ≤ ⌊m2 - 15019⌋ := Int.floor_mono (by linarith)
  rcases lt_or_eq_of_le hk with hlt | heq
  · have hd := dateLt_of_lt hlt
    unfold dateLtP at hd
    rcases hd with hy | ⟨ey, hd⟩
    · exact Or.inl hy
    · refine Or.inr ⟨ey, ?_⟩
      rcases hd with hmo | ⟨emo, hdd⟩
      · exact Or.inl hmo
      · exact Or.inr ⟨emo, Or.inl hdd⟩
  · have hf : Int.fract (m1 - 15019) ≤ Int.fract (m2 - 15019) := by
      have e1 : Int.fract (m1 - 15019) = m1 - 15019 - (⌊m1 - 15019⌋ : ℚ) :=
        (Int.self_sub_floor (m1 - 15019)).symm
      have e2 : Int.fract (m2 - 15019) = m2 - 15019 - (⌊m2 - 15019⌋ : ℚ) :=
        (Int.self_sub_floor (m2 - 15019)).symm
      rw [e1, e2, heq]
      linarith
    have ht := time_of_frac_le (Int.fract_nonneg (m1 - 15019)) hf
    unfold timeLEP at ht
    rw [heq]
    exact Or.inr ⟨rfl, Or.inr ⟨rfl, Or.inr ⟨rfl, ht⟩⟩⟩
/-! ## Claim theorems -/

/-- C1: the spec claims `_date_time_to_mjd` and `_mjd_to_year_date_time`
round-trip within one second.  They do not: the Python port dropped the
integer truncations that the libastro `cal_mjd` function applies to the `365.25*y`
and `30.6001*(m+1)` terms, so `_date_time_to_mjd` carries a spurious
fractional offset.  At 2010-01-01 00:00:00 it returns 55197.6514 instead
of MJD 55197, and converting that value back yields 2010-01-01 15:38:00 —
off by more than 15 hours; likewise MJD 55197 converts to
2010-01-01 00:00:00 and back to 55197.6514, an error of 0.6514 days,
far above the 1/86400 tolerance. -/
theorem c1_roundtrip_failure :
    _date_time_to_mjd 2010 1 1 0 0 0 = .ok (275988257 / 5000 : ℚ) ∧
    _mjd_to_year_date_time (275988257 / 5000) = (2010, (1, 1), (15, 38, 0)) ∧
    _mjd_to_year_date_time 55197 = (2010, (1, 1), (0, 0, 0)) ∧
    (275988257 / 5000 : ℚ) - 55197 = 6514 / 10000 := by
  refine ⟨?_, ?_, ?_, ?_⟩
  · with_unfolding_all rfl
  · with_unfolding_all rfl
  · with_unfolding_all rfl
  · norm_num
/-- C2: the spec claims a fetch failure that is not a "not found" condition
always propagates, regardless of `not_found_value`.  It does not: the
`except` clause substitutes on `err.response.status == httplib.NOT_FOUND
or not_found_value is not None`, so a server error (HTTP 500) is silently
replaced by `not_found_value` whenever the latter is provided. -/
theorem c2_server_error_substituted :
    mean_focus (fun _ => .error (.http 500)) (fun _ _ _ _ => 0) (fun _ _ _ _ => 0)
      55197 (55197 + 1/24) 3 (some (-1)) true
      = .ok (.pair (some (-1)) (some (-1))) := by
  with_unfolding_all rfl
/-- C3: the spec (and the docstring of the function itself) claim that a "not
found" fetch failure with `not_found_value` left at its default `None`
propagates as an exception.  It does not: with status 404 the condition
`err.response.status == httplib.NOT_FOUND or not_found_value is not None`
holds, so the code returns `not_found_value`, i.e. `None`, instead of
re-raising. -/
theorem c3_not_found_default_returns_none :
    mean_focus (fun _ => .error (.http 404)) (fun _ _ _ _ => 0) (fun _ _ _ _ => 0)
      55197 (55197 + 1/24) 3 none false
      = .ok (.single none) := by
  with_unfolding_all rfl
/-- C4: in every successful call, the fetch intervals are built from the
span padded outward by exactly ten minutes (`10 / (24 * 60)` of a day) on
each end, while the returned mean divides the definite
integral of the interpolant over the exact unpadded `[expstart, expend]` —
not the padded span — by `(expend - expstart)`. -/
theorem c4_padding_and_unpadded_mean
    (fetch : FetchInterval → Except PyError SampleTable)
    (integral trapz_sq : SampleTable → ℕ → ℚ → ℚ → ℚ)
    (expstart expend : ℚ) (spline_order : ℕ) (not_found_value : Option ℚ)
    (ds : SampleTable)
    (hfetch : fetch_loop fetch (mean_focus_intervals expstart expend) = .ok ds)
    (hne : expend - expstart ≠ 0) :
    (mean_focus_intervals expstart expend =
      (let s := _mjd_to_year_date_time (expstart - 10 / (24 * 60))
       let e := _mjd_to_year_date_time (expend + 10 / (24 * 60))
       if s.2.1 ≠ e.2.1 then
         [⟨s.1, s.2.1, (s.2.2.1, s.2.2.2.1), (23, 59)⟩,
          ⟨e.1, e.2.1, (0, 0), (e.2.2.1, e.2.2.2.1)⟩]
       else
         [⟨s.1, s.2.1, (s.2.2.1, s.2.2.2.1), (e.2.2.1, e.2.2.2.1)⟩])) ∧
    mean_focus fetch integral trapz_sq expstart expend spline_order
        not_found_value false
      = .ok (.single (some
          (integral ds spline_order expstart expend / (expend - expstart)))) := by
  constructor
  · rfl
  · unfold mean_focus
    dsimp only
    rw [hfetch]
    unfold pydiv
    simp only [if_neg hne]
    rfl
theorem c4_padding_and_unpadded_mean_witness :
    fetch_loop (fun _ => .ok [(1, 2)])
        (mean_focus_intervals (55197 + 1/4) (55197 + 1/2)) = .ok [(1, 2)] ∧
    (55197 + 1/2 : ℚ) - (55197 + 1/4) ≠ 0 ∧
    mean_focus (fun _ => .ok [(1, 2)]) (fun _ _ a b => b - a) (fun _ _ _ _ => 0)
        (55197 + 1/4) (55197 + 1/2) 3 none false
      = .ok (.single (some
          (((55197 + 1/2 : ℚ) - (55197 + 1/4)) / ((55197 + 1/2 : ℚ) - (55197 + 1/4))))) :=
  ⟨by with_unfolding_all rfl, by norm_num,
    (c4_padding_and_unpadded_mean (fun _ => .ok [(1, 2)]) (fun _ _ a b => b - a)
      (fun _ _ _ _ => 0) (55197 + 1/4) (55197 + 1/2) 3 none [(1, 2)]
      (by with_unfolding_all rfl) (by norm_num)).2⟩
/-- C5 counterexample: `expstart = 109923/2` (= MJD 54961.5, noon of
2009-05-10) and `expend = 110653/2` (= MJD 55326.5, noon of 2010-05-10).
The padded endpoints fall on different calendar dates (year 2009 vs year
2010), yet only ONE fetch interval is built, because src line 166 compares
only the `"MM/DD"` strings — `"05/10" == "05/10"` — ignoring the year.
The claim "otherwise exactly two fetch requests are issued" is false. -/
theorem c5_counterexample :
    (_mjd_to_year_date_time ((109923/2 : ℚ) - 10 / (24 * 60))).1
        ≠ (_mjd_to_year_date_time ((110653/2 : ℚ) + 10 / (24 * 60))).1 ∧
    (mean_focus_intervals (109923/2) (110653/2)).length = 1 := by
  constructor
  · with_unfolding_all decide
  · with_unfolding_all rfl
/-- C5 (amended): one fetch interval is built when the padded endpoints
share the same month/day pair (the `"MM/DD"` date string, which ignores
the year), two otherwise, with the shapes the claim describes. -/
theorem c5_amended_same_month_day_one_fetch (expstart expend : ℚ) :
    mean_focus_intervals expstart expend =
      (let s := _mjd_to_year_date_time (expstart - 10 / (24 * 60))
       let e := _mjd_to_year_date_time (expend + 10 / (24 * 60))
       if s.2.1 = e.2.1 then
         [⟨s.1, s.2.1, (s.2.2.1, s.2.2.2.1), (e.2.2.1, e.2.2.2.1)⟩]
       else
         [⟨s.1, s.2.1, (s.2.2.1, s.2.2.2.1), (23, 59)⟩,
          ⟨e.1, e.2.1, (0, 0), (e.2.2.1, e.2.2.2.1)⟩]) := by
  unfold mean_focus_intervals
  dsimp only
  by_cases h : (_mjd_to_year_date_time (expstart - 10 / (24 * 60))).2.1
      = (_mjd_to_year_date_time (expend + 10 / (24 * 60))).2.1
  · rw [if_neg (not_not.mpr h), if_pos h]
  · rw [if_pos h, if_neg h]
/-- C6: `_mjd_to_year_date_time` is monotone: for `m1 < m2` the calendar
instant of `m1` never sorts later than that of `m2` under lexicographic
calendar ordering (year, month, day, hour, minute, second). -/
theorem c6_mjd_to_calendar_monotone (m1 m2 : ℚ) (h : m1 < m2) :
    calendar_le (_mjd_to_year_date_time m1) (_mjd_to_year_date_time m2) = true :=
  mjd_monotone_aux h
theorem c6_mjd_to_calendar_monotone_witness :
    (55197 : ℚ) < 55198 ∧
    calendar_le (_mjd_to_year_date_time 55197) (_mjd_to_year_date_time 55198) = true :=
  ⟨by norm_num, c6_mjd_to_calendar_monotone 55197 55198 (by norm_num)⟩
theorem pydiv_zero (a : ℚ) : pydiv a 0 = .error .zeroDivision := by
  unfold pydiv
  rw [if_pos rfl]
/-- C7 counterexample: a degenerate span (`expend == expstart`) does NOT
return the instantaneous value of the interpolant: `spline.integral(x, x) /
(expend - expstart)` divides by zero, raising `ZeroDivisionError`, even
though all fetches succeed. -/
theorem c7_counterexample :
    mean_focus (fun _ => .ok [(55196, 1), (55198, 1)])
      (fun _ _ _ _ => 0) (fun _ _ _ _ => 0) 55197 55197 3 none false
      = .error .zeroDivision := by
  with_unfolding_all rfl
/-- C7 (amended): every call with `expend == expstart` whose fetches
succeed reaches the division by `(expend - expstart) = 0` and raises
`ZeroDivisionError` (which the `except HTTPResponseError` clause does not
catch), for any `spline_order`, `not_found_value` and `with_var`. -/
theorem c7_amended_degenerate_span_raises
    (fetch : FetchInterval → Except PyError SampleTable)
    (integral trapz_sq : SampleTable → ℕ → ℚ → ℚ → ℚ)
    (s : ℚ) (spline_order : ℕ) (not_found_value : Option ℚ) (with_var : Bool)
    (ds : SampleTable)
    (hfetch : fetch_loop fetch (mean_focus_intervals s s) = .ok ds) :
    mean_focus fetch integral trapz_sq s s spline_order not_found_value with_var
      = .error .zeroDivision := by
  unfold mean_focus
  dsimp only
  rw [hfetch]
  simp only [sub_self, pydiv_zero]
  rfl
theorem c7_amended_degenerate_span_raises_witness :
    fetch_loop (fun _ => .ok [(1, 2)]) (mean_focus_intervals (55197 + 1/4) (55197 + 1/4))
        = .ok [(1, 2)] ∧
    mean_focus (fun _ => .ok [(1, 2)]) (fun _ _ _ _ => 0) (fun _ _ _ _ => 0)
        (55197 + 1/4) (55197 + 1/4) 3 (some 7) true = .error .zeroDivision :=
  ⟨by with_unfolding_all rfl,
    c7_amended_degenerate_span_raises (fun _ => .ok [(1, 2)]) (fun _ _ _ _ => 0)
      (fun _ _ _ _ => 0) (55197 + 1/4) 3 (some 7) true [(1, 2)]
      (by with_unfolding_all rfl)⟩
/-- C8 counterexample: `_date_time_to_mjd` does NOT accept years before
the epoch: the `date(year, month, day)` construction used for the
changeover comparison (src line 310) raises `ValueError` for any
`year < 1`, so the distinct negative-year linear term on src line 318 is
unreachable. -/
theorem c8_counterexample :
    _date_time_to_mjd (-10) 1 1 0 0 0 = .error .valueError := by
  with_unfolding_all rfl
/-- C8 (amended): `_date_time_to_mjd` selects a distinct 0.75-shifted
linear term for negative March-normalized years, but that branch is
unreachable: any `year < 1` raises `ValueError` from the
`datetime.date` construction before it.  For every date the
`datetime.date` constructor accepts (1 ≤ year ≤ 9999, valid month/day)
the function returns a finite float. -/
theorem c8_amended_valid_dates_ok (year month day hours minutes seconds : ℤ)
    (hv : pydate_valid year month day = true) :
    ∃ q : ℚ, _date_time_to_mjd year month day hours minutes seconds = .ok q := by
  unfold _date_time_to_mjd
  dsimp only
  rw [hv]
  rw [if_neg (by simp)]
  exact ⟨_, rfl⟩
theorem c8_amended_valid_dates_ok_witness :
    pydate_valid 1999 2 28 = true ∧
    ∃ q : ℚ, _date_time_to_mjd 1999 2 28 12 30 45 = .ok q :=
  ⟨by with_unfolding_all rfl,
    c8_amended_valid_dates_ok 1999 2 28 12 30 45 (by with_unfolding_all rfl)⟩
theorem day_in_range (k : ℤ) {f : ℚ} (h0 : 0 ≤ f) (h1 : f < 1) :
    1 ≤ (_decompose k f).2.2 ∧ (_decompose k f).2.2 ≤ 31 := by
  unfold _decompose
  dsimp only
  rw [pytrunc_int_add (by have := month_day_range k; omega) h0 h1]
  have := month_day_range k
  omega
/-- C9: whenever the fractional-day value after the epoch shift is exactly
1, `_mjd_to_year_date_time` normalizes it to 0 and carries 1 into the
integer day count, preserving the represented instant and keeping the
fraction in `[0, 1)`; consequently the day-of-month computed downstream
stays in the calendar range `[1, 31]`. -/
theorem c9_frac_carry (day_int : ℤ) (day_frac : ℚ)
    (h0 : 0 ≤ day_frac) (h1 : day_frac ≤ 1) :
    (day_frac = 1 → _norm_day day_int day_frac = (day_int + 1, 0)) ∧
    0 ≤ (_norm_day day_int day_frac).2 ∧ (_norm_day day_int day_frac).2 < 1 ∧
    ((_norm_day day_int day_frac).1 : ℚ) + (_norm_day day_int day_frac).2
        = (day_int : ℚ) + day_frac ∧
    1 ≤ (_decompose (_gregorian_correct (_norm_day day_int day_frac).1)
          (_norm_day day_int day_frac).2).2.2 ∧
    (_decompose (_gregorian_correct (_norm_day day_int day_frac).1)
          (_norm_day day_int day_frac).2).2.2 ≤ 31 := by
  unfold _norm_day
  by_cases hf : day_frac = 1
  · rw [if_pos hf]
    dsimp only
    refine ⟨fun _ => rfl, le_refl 0, by norm_num, ?_, ?_, ?_⟩
    · rw [hf]
      push_cast
      ring
    · exact (day_in_range _ (le_refl 0) (by norm_num)).1
    · exact (day_in_range _ (le_refl 0) (by norm_num)).2
  · rw [if_neg hf]
    dsimp only
    have hlt : day_frac < 1 := lt_of_le_of_ne h1 hf
    exact ⟨fun hc => absurd hc hf, h0, hlt, rfl,
      (day_in_range _ h0 hlt).1, (day_in_range _ h0 hlt).2⟩
theorem c9_frac_carry_witness :
    (0 : ℚ) ≤ 1 ∧ (1 : ℚ) ≤ 1 ∧
    ((1 : ℚ) = 1 → _norm_day 5 1 = (5 + 1, 0)) ∧
    0 ≤ (_norm_day 5 1).2 ∧ (_norm_day 5 1).2 < 1 ∧
    ((_norm_day 5 1).1 : ℚ) + (_norm_day 5 1).2 = ((5 : ℤ) : ℚ) + 1 ∧
    1 ≤ (_decompose (_gregorian_correct (_norm_day 5 1).1) (_norm_day 5 1).2).2.2 ∧
    (_decompose (_gregorian_correct (_norm_day 5 1).1) (_norm_day 5 1).2).2.2 ≤ 31 :=
  ⟨by norm_num, by norm_num, c9_frac_carry 5 1 (by norm_num) (by norm_num)⟩
/-- C10: for a format other than TXT, PNG or BOTH, after a
successful generation POST, `get_model_data` issues no retrieval GET at
all and returns the 2-tuple `(None, None)` instead of raising or
returning data. -/
theorem c10_unknown_format_skips_retrieval (τ π : Type)
    (post_status txt_status png_status : ℕ) (txt_body : τ) (png_body : π)
    (format : String) (hpost : post_status = 200)
    (h1 : format ≠ "TXT") (h2 : format ≠ "PNG") (h3 : format ≠ "BOTH") :
    get_model_data τ π post_status txt_status txt_body png_status png_body format
      = .ok ([], .tuple none none) := by
  subst hpost
  unfold get_model_data
  rw [if_neg (by simp)]
  simp only [if_neg (not_or.mpr ⟨h1, h3⟩), if_neg (not_or.mpr ⟨h2, h3⟩),
    if_neg h1, if_neg h2]
  rfl
theorem c10_unknown_format_skips_retrieval_witness :
    get_model_data ℚ ℚ 200 200 (1 : ℚ) 200 (2 : ℚ) "XYZ"
      = .ok ([], .tuple none none) :=
  c10_unknown_format_skips_retrieval ℚ ℚ 200 200 200 1 2 "XYZ" rfl
    (by decide) (by decide) (by decide)
